import Mathlib

/-!
Verification development for the llm-council MCP server
(`backend/mcp_server.py`).

The file shallow-embeds the request handlers of the server as pure Lean
functions.  External collaborators (the council pipeline stages, the
conversation store, the logging channel of the MCP session) are modelled by
an explicit oracle (`Env`): each call the handler makes is a field of the
oracle and may either return a value or raise a Python exception
(`Except PyExn`).  The process-wide mutable module `backend_config` is
modelled by an explicit `Config` value threaded through each handler, and
every external call the handler issues is recorded, in order, in an event
trace, so that sequencing and frame claims can be stated.
-/

set_option maxRecDepth 100000

/-- A Python exception as observed by an `except` block: the `str(e)`
message and the `traceback.format_exc()` text. -/
structure PyExn where
  msg : String
  tb : String
deriving DecidableEq

/-- Outcome of a whole handler call: a returned value, or an exception
escaping the handler. -/
inductive PyResult (α : Type) where
  | ok (val : α)
  | raised (e : PyExn)
deriving DecidableEq

/-- Modelled from the spec (section 3): the per-model Stage 1 outcome
produced by the missing `backend.council.stage1_collect_responses`.
The handlers treat these values as opaque list elements. -/
structure ModelResponse where
  model_id : String
  text : String
  error : Option String
deriving DecidableEq

/-- Modelled from the spec (section 3): one ranking submission produced by
the missing `backend.council.stage2_collect_rankings`. -/
structure RankingSubmission where
  ranking_model_id : String
  ordered_labels : List String
  error : Option String
deriving DecidableEq

/-- The anonymized label-to-model mapping returned by Stage 2. -/
abbrev LabelMap := List (String × String)

/-- Modelled from the spec (section 3): the Stage 3 output of the missing
`backend.council.stage3_synthesize_final`. -/
structure SynthesisResult where
  text : String
  chairman_model_id : String
  error : Option String
deriving DecidableEq

/-- Modelled from the spec (section 3): one entry of the aggregate
ranking. -/
structure AggregateRankingEntry where
  model_id : String
  score : Nat
  rank : Nat
deriving DecidableEq

/-- `true` iff the list has no duplicate elements. -/
def nodupBool : List String → Bool
  | [] => true
  | x :: xs => !(xs.contains x) && nodupBool xs

/-- Modelled from the spec (section 4.3): a submission is valid when it
carries no error, references only known labels, and repeats no label. -/
def isValidSubmission (labels : List String) (s : RankingSubmission) : Bool :=
  s.error.isNone && s.ordered_labels.all (fun l => labels.contains l) &&
    nodupBool s.ordered_labels

/-- The valid submissions of a Stage 2 round, relative to its label map. -/
def validSubmissions (subs : List RankingSubmission) (ltm : LabelMap) :
    List RankingSubmission :=
  subs.filter (fun s => isValidSubmission (ltm.map (fun p => p.1)) s)

/-- Modelled from the spec (section 4.4): the positional points one
submission awards to a label, out of `n` labels: a label ranked at
0-based position `i` earns `n - 1 - i`; an omitted label earns 0. -/
def positionPoints (n : Nat) (ordered : List String) (lab : String) : Nat :=
  match ordered.findIdx? (fun l => l == lab) with
  | some i => n - 1 - i
  | none => 0

/-- Add `p` points for model `m` in an association list of totals. -/
def addPoint (acc : List (String × Nat)) (m : String) (p : Nat) :
    List (String × Nat) :=
  match acc with
  | [] => [(m, p)]
  | (m2, q) :: rest =>
    if m2 = m then (m2, q + p) :: rest else (m2, q) :: addPoint rest m p

/-- Merge a list of per-model points into the running totals. -/
def mergePoints (acc : List (String × Nat)) (pts : List (String × Nat)) :
    List (String × Nat) :=
  pts.foldl (fun a x => addPoint a x.1 x.2) acc

/-- `true` iff entry `a` must come no later than entry `b` in the aggregate
order: higher total score first, ties broken by lexical model id. -/
def entryBefore (a b : String × Nat) : Bool :=
  b.2 < a.2 || (a.2 == b.2 && decide (a.1 ≤ b.1))

/-- Insert an entry into a list sorted by `entryBefore`. -/
def insertSorted (x : String × Nat) : List (String × Nat) → List (String × Nat)
  | [] => [x]
  | y :: ys => if entryBefore x y then x :: y :: ys else y :: insertSorted x ys

/-- Insertion sort by `entryBefore` (descending score, lexical tie-break). -/
def sortEntries (l : List (String × Nat)) : List (String × Nat) :=
  l.foldr insertSorted []

/-- Modelled from the spec (section 4.4): `calculate_aggregate_rankings`
lives in the missing `backend.council` module.  Each valid submission
assigns positional points to every label of the round (omitted labels earn
the lowest score for that submission); points are summed per de-anonymized
model, sorted descending by total with deterministic lexical tie-break, and
numbered with 1-based ranks. -/
def calculate_aggregate_rankings (subs : List RankingSubmission)
    (ltm : LabelMap) : List AggregateRankingEntry :=
  let n := ltm.length
  let valid := validSubmissions subs ltm
  let totals := valid.foldl
    (fun acc s =>
      mergePoints acc (ltm.map (fun p => (p.2, positionPoints n s.ordered_labels p.1))))
    []
  (sortEntries totals).enum.map
    (fun p => { model_id := p.2.1, score := p.2.2, rank := p.1 + 1 })

/-- With zero valid submissions the aggregate ranking is empty. -/
theorem aggregate_empty_of_no_valid (subs : List RankingSubmission)
    (ltm : LabelMap) (h : validSubmissions subs ltm = []) :
    calculate_aggregate_rankings subs ltm = [] := by
  simp [calculate_aggregate_rankings, h, sortEntries]

example :
    calculate_aggregate_rankings
      [{ ranking_model_id := "m1", ordered_labels := ["B", "A"], error := none }]
      [("A", "m1"), ("B", "m2")] =
    [{ model_id := "m2", score := 1, rank := 1 },
     { model_id := "m1", score := 0, rank := 2 }] := by decide

example :
    calculate_aggregate_rankings
      [{ ranking_model_id := "A", ordered_labels := ["lB", "lC", "lA"], error := none },
       { ranking_model_id := "B", ordered_labels := ["lA", "lB", "lC"], error := none },
       { ranking_model_id := "C", ordered_labels := ["lA", "lC", "lB"], error := none }]
      [("lA", "A"), ("lB", "B"), ("lC", "C")] =
    [{ model_id := "A", score := 4, rank := 1 },
     { model_id := "B", score := 3, rank := 2 },
     { model_id := "C", score := 2, rank := 3 }] := by decide

/-- The persisted conversation value returned by the external store
(`backend.storage.get_conversation`); its JSON content is opaque to the
handlers, which only forward it. -/
structure Conversation where
  data : String
deriving DecidableEq

/-- The process-wide mutable `backend.config` module.  `COUNCIL_MODELS` and
`CHAIRMAN_MODEL` are the two fields the server assigns; `otherFields`
stands for every other configuration attribute, which no handler writes. -/
structure Config where
  COUNCIL_MODELS : List String
  CHAIRMAN_MODEL : String
  otherFields : Nat
deriving DecidableEq

/-- The module-level constants imported at the top of `mcp_server.py`
(`from .config import COUNCIL_MODELS, CHAIRMAN_MODEL`), fixed at import
time and used as argument defaults and as the comparison values of the
override pattern. -/
structure Defaults where
  COUNCIL_MODELS : List String
  CHAIRMAN_MODEL : String
deriving DecidableEq

/-- One external call issued by a handler, recorded in program order.
`log` events carry the index of the `send_log_message` call site. -/
inductive Event where
  | log (site : Nat)
  | stage1Call (question : String) (models : List String)
  | stage2Call (question : String) (responses : List ModelResponse) (models : List String)
  | aggregateCall
  | stage3Call (question : String) (responses : List ModelResponse)
      (rankings : List RankingSubmission) (chairman : String)
  | createConversation (id : String)
  | generateTitle (question : String)
  | updateTitle (id : String) (title : String)
  | addUserMessage (id : String) (question : String)
  | addAssistantMessage (id : String)
deriving DecidableEq

/-- The oracle for every external call a handler can make.  The council
stage functions live in the missing `backend.council` module; modelled from
the spec (sections 4.1, 4.3, 4.5, 9), they read the process-wide model
selection, so each takes the value of `backend_config.COUNCIL_MODELS`
(resp. `CHAIRMAN_MODEL`) current at call time as an explicit argument.
`sendLog` is indexed by call site.  `uuid4` is the string the run obtains
from `uuid.uuid4()`. -/
structure Env where
  sendLog : Nat → Except PyExn Unit
  stage1_collect_responses : String → List String → Except PyExn (List ModelResponse)
  stage2_collect_rankings : String → List ModelResponse → List String →
    Except PyExn (List RankingSubmission × LabelMap)
  stage3_synthesize_final : String → List ModelResponse → List RankingSubmission →
    String → Except PyExn SynthesisResult
  generate_conversation_title : String → Except PyExn String
  create_conversation : String → Except PyExn Unit
  update_conversation_title : String → String → Except PyExn Unit
  add_user_message : String → String → Except PyExn Unit
  add_assistant_message : String → List ModelResponse → List RankingSubmission →
    SynthesisResult → Except PyExn Unit
  uuid4 : String
  get_conversation : String → Option Conversation

/-- The metadata object built at lines 257-260 of `mcp_server.py`. -/
structure QueryMetadata where
  label_to_model : LabelMap
  aggregate_rankings : List AggregateRankingEntry
deriving DecidableEq

/-- The response dictionary built at lines 282-292 of `mcp_server.py`;
`conversation_id` and `resource_uri` are present only when the handler
adds them. -/
structure QueryResponse where
  question : String
  stage1_responses : List ModelResponse
  stage2_rankings : List RankingSubmission
  stage3_synthesis : SynthesisResult
  metadata : QueryMetadata
  conversation_id : Option String
  resource_uri : Option String
deriving DecidableEq

/-- The response dictionary built at lines 354-359 of `mcp_server.py`. -/
structure Stage1Response where
  question : String
  responses : List ModelResponse
  models_queried : Nat
  responses_received : Nat
deriving DecidableEq

/-- The text of a returned `TextContent`.  Plain strings are kept as such;
a value serialized with `json.dumps(...)` is kept symbolically as the
serialized structure (`json.dumps` is injective on these payloads, and no
claim depends on the concrete JSON text). -/
inductive TCText where
  | plain (s : String)
  | queryDump (r : QueryResponse)
  | stage1Dump (r : Stage1Response)
  | convDump (c : Conversation)
deriving DecidableEq

/-- An `mcp.types.TextContent` value: the handlers always construct it with
`type="text"`. -/
structure TextContent where
  type : String
  text : TCText
deriving DecidableEq

/-- Result of running a handler: the Python-level outcome, the final state
of the `backend.config` module, and the trace of external calls issued. -/
structure RunResult where
  result : PyResult (List TextContent)
  config : Config
  trace : List Event
deriving DecidableEq

/-- Outcome of a `try` body: a `return` or an escaping exception. -/
inductive BodyOut (α : Type) where
  | ret (a : α)
  | exn (e : PyExn)
deriving DecidableEq

/-- The arguments dictionary of the `council_query` tool; optional keys are
`Option` fields. -/
structure QueryArgs where
  question : String
  council_models : Option (List String)
  chairman_model : Option String
  save_conversation : Option Bool
deriving DecidableEq

/-- The arguments dictionary of the `council_stage1` tool. -/
structure StageArgs where
  question : String
  council_models : Option (List String)
deriving DecidableEq

/-- The arguments dictionary of the `council_get_conversation` tool. -/
structure GetConvArgs where
  conversation_id : String
deriving DecidableEq

/-- Lines 210-215 and 346-352 of `mcp_server.py`: the text returned when
Stage 1 produced no results. -/
def allFailedText : String :=
  "Error: All models failed to respond. Please check your OpenRouter API key and try again."

/-- Lines 310-315 of `mcp_server.py`: the text returned by the `except`
branch of `handle_council_query`. -/
def queryExceptText (e : PyExn) : String :=
  "Error: " ++ e.msg ++ "\n\nFull details:\n" ++ e.tb ++
    "\n\nPlease check:\n1. Your OPENROUTER_API_KEY is valid\n2. You have credits in your OpenRouter account\n3. The model names are correct"

/-- Lines 370 and 380-385 of `mcp_server.py`: the text returned by the
`except` branch of `handle_council_stage1`. -/
def stage1ExceptText (e : PyExn) : String :=
  "Error in council_stage1: " ++ e.msg ++
    "\n\nThis is likely a configuration or API issue. The core council logic works (verified), so check:\n1. Your mcp.json config has correct paths\n2. OPENROUTER_API_KEY is set in env\n3. Model names are valid"

/-- Lines 181-189 of `mcp_server.py`: overwrite the process-wide config
with the per-call model selection when it differs from the import-time
defaults. -/
def configAfterOverride (dfl : Defaults) (args : QueryArgs) (g0 : Config) : Config :=
  let council_models := args.council_models.getD dfl.COUNCIL_MODELS
  let chairman_model := args.chairman_model.getD dfl.CHAIRMAN_MODEL
  let g1 := if council_models ≠ dfl.COUNCIL_MODELS then
      { g0 with COUNCIL_MODELS := council_models } else g0
  if chairman_model ≠ dfl.CHAIRMAN_MODEL then
      { g1 with CHAIRMAN_MODEL := chairman_model } else g1

/-- Lines 331-333 of `mcp_server.py`: the same override for
`handle_council_stage1`, which only touches `COUNCIL_MODELS`. -/
def configAfterOverrideS1 (dfl : Defaults) (args : StageArgs) (g0 : Config) : Config :=
  let council_models := args.council_models.getD dfl.COUNCIL_MODELS
  if council_models ≠ dfl.COUNCIL_MODELS then
    { g0 with COUNCIL_MODELS := council_models } else g0

/-- The `try` block of `handle_council_query` (lines 185-299 of
`mcp_server.py`).  Log call sites are numbered 0-7 in program order
(lines 192, 197, 205, 218, 224, 233, 239, 251); site 8 is the log call of
the `except` branch. -/
def queryBody (dfl : Defaults) (env : Env) (args : QueryArgs) (g0 : Config) :
    BodyOut (List TextContent) × Config × List Event :=
  let question := args.question
  let save_conversation := (args.save_conversation.getD true) = true
  let g := configAfterOverride dfl args g0
  let t0 : List Event := [Event.log 0]
  match env.sendLog 0 with
  | Except.error e => (BodyOut.exn e, g, t0)
  | Except.ok _ =>
  let t1 := t0 ++ [Event.log 1]
  match env.sendLog 1 with
  | Except.error e => (BodyOut.exn e, g, t1)
  | Except.ok _ =>
  let t2 := t1 ++ [Event.stage1Call question g.COUNCIL_MODELS]
  match env.stage1_collect_responses question g.COUNCIL_MODELS with
  | Except.error e => (BodyOut.exn e, g, t2)
  | Except.ok stage1_results =>
  let t3 := t2 ++ [Event.log 2]
  match env.sendLog 2 with
  | Except.error e => (BodyOut.exn e, g, t3)
  | Except.ok _ =>
  if stage1_results.isEmpty then
    (BodyOut.ret [{ type := "text", text := TCText.plain allFailedText }], g, t3)
  else
  let t4 := t3 ++ [Event.log 3]
  match env.sendLog 3 with
  | Except.error e => (BodyOut.exn e, g, t4)
  | Except.ok _ =>
  let t5 := t4 ++ [Event.log 4]
  match env.sendLog 4 with
  | Except.error e => (BodyOut.exn e, g, t5)
  | Except.ok _ =>
  let t6 := t5 ++ [Event.stage2Call question stage1_results g.COUNCIL_MODELS]
  match env.stage2_collect_rankings question stage1_results g.COUNCIL_MODELS with
  | Except.error e => (BodyOut.exn e, g, t6)
  | Except.ok s2 =>
  let stage2_results := s2.1
  let label_to_model := s2.2
  let aggregate_rankings := calculate_aggregate_rankings stage2_results label_to_model
  let t7 := t6 ++ [Event.aggregateCall, Event.log 5]
  match env.sendLog 5 with
  | Except.error e => (BodyOut.exn e, g, t7)
  | Except.ok _ =>
  let t8 := t7 ++ [Event.log 6]
  match env.sendLog 6 with
  | Except.error e => (BodyOut.exn e, g, t8)
  | Except.ok _ =>
  let t9 := t8 ++ [Event.stage3Call question stage1_results stage2_results g.CHAIRMAN_MODEL]
  match env.stage3_synthesize_final question stage1_results stage2_results g.CHAIRMAN_MODEL with
  | Except.error e => (BodyOut.exn e, g, t9)
  | Except.ok stage3_result =>
  let t10 := t9 ++ [Event.log 7]
  match env.sendLog 7 with
  | Except.error e => (BodyOut.exn e, g, t10)
  | Except.ok _ =>
  let md : QueryMetadata :=
    { label_to_model := label_to_model, aggregate_rankings := aggregate_rankings }
  if save_conversation then
    let cid := env.uuid4
    let t11 := t10 ++ [Event.createConversation cid]
    match env.create_conversation cid with
    | Except.error e => (BodyOut.exn e, g, t11)
    | Except.ok _ =>
    let t12 := t11 ++ [Event.generateTitle question]
    match env.generate_conversation_title question with
    | Except.error e => (BodyOut.exn e, g, t12)
    | Except.ok title =>
    let t13 := t12 ++ [Event.updateTitle cid title]
    match env.update_conversation_title cid title with
    | Except.error e => (BodyOut.exn e, g, t13)
    | Except.ok _ =>
    let t14 := t13 ++ [Event.addUserMessage cid question]
    match env.add_user_message cid question with
    | Except.error e => (BodyOut.exn e, g, t14)
    | Except.ok _ =>
    let t15 := t14 ++ [Event.addAssistantMessage cid]
    match env.add_assistant_message cid stage1_results stage2_results stage3_result with
    | Except.error e => (BodyOut.exn e, g, t15)
    | Except.ok _ =>
    let response : QueryResponse :=
      { question := question, stage1_responses := stage1_results,
        stage2_rankings := stage2_results, stage3_synthesis := stage3_result,
        metadata := md,
        conversation_id := if cid ≠ "" then some cid else none,
        resource_uri := if cid ≠ "" then some ("council://conversations/" ++ cid) else none }
    (BodyOut.ret [{ type := "text", text := TCText.queryDump response }], g, t15)
  else
    let response : QueryResponse :=
      { question := question, stage1_responses := stage1_results,
        stage2_rankings := stage2_results, stage3_synthesis := stage3_result,
        metadata := md, conversation_id := none, resource_uri := none }
    (BodyOut.ret [{ type := "text", text := TCText.queryDump response }], g, t10)

/-- `handle_council_query` (lines 174-320 of `mcp_server.py`): runs the
`try` body, then the `except` branch on an escaping exception (which logs
at site 8 and returns the free-text error, or re-raises if that log call
itself raises), and finally restores `backend_config.COUNCIL_MODELS` and
`backend_config.CHAIRMAN_MODEL` to their entry values. -/
def handle_council_query (dfl : Defaults) (env : Env) (args : QueryArgs)
    (g0 : Config) : RunResult :=
  let original_council := g0.COUNCIL_MODELS
  let original_chairman := g0.CHAIRMAN_MODEL
  match queryBody dfl env args g0 with
  | (BodyOut.ret tcs, g, tr) =>
    { result := PyResult.ok tcs,
      config := { g with COUNCIL_MODELS := original_council,
                         CHAIRMAN_MODEL := original_chairman },
      trace := tr }
  | (BodyOut.exn e, g, tr) =>
    match env.sendLog 8 with
    | Except.error e2 =>
      { result := PyResult.raised e2,
        config := { g with COUNCIL_MODELS := original_council,
                           CHAIRMAN_MODEL := original_chairman },
        trace := tr ++ [Event.log 8] }
    | Except.ok _ =>
      { result := PyResult.ok [{ type := "text", text := TCText.plain (queryExceptText e) }],
        config := { g with COUNCIL_MODELS := original_council,
                           CHAIRMAN_MODEL := original_chairman },
        trace := tr ++ [Event.log 8] }

/-- The `try` block of `handle_council_stage1` (lines 331-366 of
`mcp_server.py`).  The log call at line 337 (site 10) is wrapped in its own
`try/except Exception: pass`, so its failure is swallowed and execution
continues either way. -/
def stage1Body (dfl : Defaults) (env : Env) (args : StageArgs) (g0 : Config) :
    BodyOut (List TextContent) × Config × List Event :=
  let question := args.question
  let council_models := args.council_models.getD dfl.COUNCIL_MODELS
  let g := configAfterOverrideS1 dfl args g0
  let t0 : List Event := [Event.log 10]
  let t1 := t0 ++ [Event.stage1Call question g.COUNCIL_MODELS]
  match env.stage1_collect_responses question g.COUNCIL_MODELS with
  | Except.error e => (BodyOut.exn e, g, t1)
  | Except.ok stage1_results =>
  if stage1_results.isEmpty then
    (BodyOut.ret [{ type := "text", text := TCText.plain allFailedText }], g, t1)
  else
    let response : Stage1Response :=
      { question := question, responses := stage1_results,
        models_queried := council_models.length,
        responses_received := stage1_results.length }
    (BodyOut.ret [{ type := "text", text := TCText.stage1Dump response }], g, t1)

/-- `handle_council_stage1` (lines 323-388 of `mcp_server.py`): the
`except` branch logs at site 11 inside its own `try/except Exception: pass`
(so a logging failure is swallowed) and returns the free-text error;
`finally` restores `backend_config.COUNCIL_MODELS`. -/
def handle_council_stage1 (dfl : Defaults) (env : Env) (args : StageArgs)
    (g0 : Config) : RunResult :=
  let original_council := g0.COUNCIL_MODELS
  match stage1Body dfl env args g0 with
  | (BodyOut.ret tcs, g, tr) =>
    { result := PyResult.ok tcs,
      config := { g with COUNCIL_MODELS := original_council },
      trace := tr }
  | (BodyOut.exn e, g, tr) =>
    { result := PyResult.ok [{ type := "text", text := TCText.plain (stage1ExceptText e) }],
      config := { g with COUNCIL_MODELS := original_council },
      trace := tr ++ [Event.log 11] }

/-- `handle_get_conversation_tool` (lines 403-421 of `mcp_server.py`):
returns a not-found text for a missing conversation, a dump of the
conversation otherwise; it raises nothing. -/
def handle_get_conversation_tool (env : Env) (args : GetConvArgs) :
    List TextContent :=
  match env.get_conversation args.conversation_id with
  | none =>
    [{ type := "text",
       text := TCText.plain ("Error: Conversation not found: " ++ args.conversation_id) }]
  | some c => [{ type := "text", text := TCText.convDump c }]

/-- Python `str.startswith`, on the character list of the string. -/
def pyStartswith (s pre : String) : Bool :=
  List.isPrefixOf pre.data s.data

/-- Replace every occurrence of `pat` in `s`, left to right, as Python
`str.replace` does for a non-empty pattern.  The fuel argument, seeded with
the length of `s`, only bounds the recursion: every step consumes at least
one character of `s`. -/
def replaceAllFuel : Nat → List Char → List Char → List Char → List Char
  | _, [], _, _ => []
  | 0, s, _, _ => s
  | Nat.succ fuel, c :: rest, pat, repl =>
    if pat ≠ [] && List.isPrefixOf pat (c :: rest) then
      repl ++ replaceAllFuel fuel ((c :: rest).drop pat.length) pat repl
    else c :: replaceAllFuel fuel rest pat repl

/-- Python `str.replace` for a non-empty pattern. -/
def pyReplace (s pat repl : String) : String :=
  { data := replaceAllFuel s.data.length s.data pat.data repl.data }

/-- `handle_read_resource` (lines 48-60 of `mcp_server.py`): raises
`ValueError` on a URI outside the `council://conversations/` scheme and on
a missing conversation; otherwise returns the dumped conversation.  The
traceback field of a raised `ValueError` is never observed and is modelled
as the empty string. -/
def handle_read_resource (env : Env) (uri : String) : Except PyExn TCText :=
  if !(pyStartswith uri "council://conversations/") then
    Except.error { msg := "Unknown resource URI: " ++ uri, tb := "" }
  else
    let conversation_id := pyReplace uri "council://conversations/" ""
    match env.get_conversation conversation_id with
    | none =>
      Except.error { msg := "Conversation not found: " ++ conversation_id, tb := "" }
    | some c => Except.ok (TCText.convDump c)

deriving instance DecidableEq for Except

/-- The pipeline phase of an event, used to state stage ordering: Stage 1
is 1, Stage 2 is 2, rank aggregation is 3, Stage 3 is 4, every persistence
operation is 5; log notifications carry no phase. -/
def stagePhase : Event → Option Nat
  | Event.log _ => none
  | Event.stage1Call _ _ => some 1
  | Event.stage2Call _ _ _ => some 2
  | Event.aggregateCall => some 3
  | Event.stage3Call _ _ _ _ => some 4
  | Event.createConversation _ => some 5
  | Event.generateTitle _ => some 5
  | Event.updateTitle _ _ => some 5
  | Event.addUserMessage _ _ => some 5
  | Event.addAssistantMessage _ => some 5

/-- Events of the stages after Stage 1: the Stage 2 ranking call, the rank
aggregation, and the Stage 3 synthesis call. -/
def isLaterStageEvent : Event → Bool
  | Event.stage2Call _ _ _ => true
  | Event.aggregateCall => true
  | Event.stage3Call _ _ _ _ => true
  | _ => false

/-- The Stage 1 collection call event. -/
def isStage1CallEvent : Event → Bool
  | Event.stage1Call _ _ => true
  | _ => false

/-- The Stage 3 synthesis call event. -/
def isStage3CallEvent : Event → Bool
  | Event.stage3Call _ _ _ _ => true
  | _ => false

/-- A returned content that reports a failure: the handlers return plain
free text exactly on their failure paths, and a `json.dumps` payload
exactly on success. -/
def isFailureContent : TCText → Bool
  | TCText.plain _ => true
  | _ => false

/-- A run-level failure outcome: an escaping exception, or a response all
of whose contents are plain free-text error messages. -/
def isRunFailure : PyResult (List TextContent) → Bool
  | PyResult.raised _ => true
  | PyResult.ok tcs => tcs.all (fun tc => isFailureContent tc.text)

/-- The per-run override touches only the two model-selection fields. -/
theorem configAfterOverride_other (dfl : Defaults) (args : QueryArgs)
    (g0 : Config) : (configAfterOverride dfl args g0).otherFields = g0.otherFields := by
  simp only [configAfterOverride]
  split <;> split <;> rfl

/-- The `council_stage1` override touches only `COUNCIL_MODELS`. -/
theorem configAfterOverrideS1_frame (dfl : Defaults) (args : StageArgs)
    (g0 : Config) :
    (configAfterOverrideS1 dfl args g0).CHAIRMAN_MODEL = g0.CHAIRMAN_MODEL ∧
    (configAfterOverrideS1 dfl args g0).otherFields = g0.otherFields := by
  simp only [configAfterOverrideS1]
  split <;> exact ⟨rfl, rfl⟩

/-- The `try` body of `handle_council_query` never writes any
configuration field other than the two model-selection fields. -/
theorem queryBody_other (dfl : Defaults) (env : Env) (args : QueryArgs)
    (g0 : Config) :
    ((queryBody dfl env args g0).2.1).otherFields = g0.otherFields := by
  simp only [queryBody]
  repeat' split
  all_goals simp [configAfterOverride_other]

/-- The `try` body of `handle_council_stage1` never writes
`CHAIRMAN_MODEL` nor any other configuration field. -/
theorem stage1Body_frame (dfl : Defaults) (env : Env) (args : StageArgs)
    (g0 : Config) :
    ((stage1Body dfl env args g0).2.1).CHAIRMAN_MODEL = g0.CHAIRMAN_MODEL ∧
    ((stage1Body dfl env args g0).2.1).otherFields = g0.otherFields := by
  simp only [stage1Body]
  repeat' split
  all_goals exact configAfterOverrideS1_frame dfl args g0

/-- C9: on every exit path of `handle_council_query` and
`handle_council_stage1` — normal return, early return on empty Stage 1, or
exception — the process-wide `backend_config.COUNCIL_MODELS` and
`backend_config.CHAIRMAN_MODEL` are restored to their entry values, and no
other global configuration field is modified: the final configuration
equals the entry configuration. -/
theorem handlers_restore_config (dfl : Defaults) (env : Env)
    (qargs : QueryArgs) (sargs : StageArgs) (g0 g1 : Config) :
    (handle_council_query dfl env qargs g0).config = g0 ∧
    (handle_council_stage1 dfl env sargs g1).config = g1 := by
  constructor
  · have h := queryBody_other dfl env qargs g0
    obtain ⟨oc, och, oo⟩ := g0
    simp only [handle_council_query]
    split
    · next tcs g tr heq =>
      rw [heq] at h
      simp_all [Config.mk.injEq]
    · next e g tr heq =>
      rw [heq] at h
      split <;> simp_all [Config.mk.injEq]
  · have h := stage1Body_frame dfl env sargs g1
    obtain ⟨oc, och, oo⟩ := g1
    simp only [handle_council_stage1]
    split
    · next tcs g tr heq =>
      rw [heq] at h
      simp_all [Config.mk.injEq]
    · next e g tr heq =>
      rw [heq] at h
      simp_all [Config.mk.injEq]

/-- The phases of the events issued by the `try` body of
`handle_council_query` are non-decreasing. -/
theorem queryBody_phases (dfl : Defaults) (env : Env) (args : QueryArgs)
    (g0 : Config) :
    List.Chain' (· ≤ ·) ((queryBody dfl env args g0).2.2.filterMap stagePhase) := by
  simp only [queryBody]
  repeat' split
  all_goals simp [stagePhase]

/-- C7: every run of `handle_council_query` issues its external calls in
strict stage order — the Stage 1 collection call, then the Stage 2 ranking
call, then the rank aggregation, then the Stage 3 synthesis call — and the
persistence-store operations (conversation creation, title generation and
assignment, message appends) are issued only after the Stage 3 call, never
between stages: the phase sequence of the issued calls is monotone. -/
theorem council_query_stage_ordering (dfl : Defaults) (env : Env)
    (args : QueryArgs) (g0 : Config) :
    List.Chain' (· ≤ ·)
      ((handle_council_query dfl env args g0).trace.filterMap stagePhase) := by
  have h := queryBody_phases dfl env args g0
  simp only [handle_council_query]
  split
  · next tcs g tr heq =>
    rw [heq] at h
    simpa using h
  · next e g tr heq =>
    rw [heq] at h
    split <;> simpa [stagePhase] using h

/-- When Stage 1 yields the empty list, the `try` body issues no later
stage call and can only return the all-failed error text or raise. -/
theorem queryBody_stage1_empty (dfl : Defaults) (env : Env)
    (args : QueryArgs) (g0 : Config)
    (hs1 : ∀ q ms, env.stage1_collect_responses q ms = Except.ok []) :
    ((queryBody dfl env args g0).2.2.all fun e => !isLaterStageEvent e) = true ∧
    ∀ tcs, (queryBody dfl env args g0).1 = BodyOut.ret tcs →
      tcs = [{ type := "text", text := TCText.plain allFailedText }] := by
  simp only [queryBody]
  repeat' split
  all_goals simp_all [isLaterStageEvent, hs1]

/-- C1: for every question, if Stage 1 yields zero responses
(`stage1_collect_responses` returns the empty list), `handle_council_query`
returns a run-level failure and issues no Stage 2 ranking call, no rank
aggregation, and no Stage 3 synthesis call. -/
theorem council_query_all_providers_failed (dfl : Defaults) (env : Env)
    (args : QueryArgs) (g0 : Config)
    (hs1 : ∀ q ms, env.stage1_collect_responses q ms = Except.ok []) :
    isRunFailure (handle_council_query dfl env args g0).result = true ∧
    ((handle_council_query dfl env args g0).trace.all
      fun e => !isLaterStageEvent e) = true := by
  have h := queryBody_stage1_empty dfl env args g0 hs1
  simp only [handle_council_query]
  split
  · next tcs g tr heq =>
    rw [heq] at h
    obtain ⟨h1, h2⟩ := h
    have h3 := h2 tcs rfl
    subst h3
    simpa [isRunFailure, isFailureContent] using h1
  · next e g tr heq =>
    rw [heq] at h
    obtain ⟨h1, _⟩ := h
    split <;> simp_all [isRunFailure, isFailureContent, isLaterStageEvent]

/-- The response payload of a successful `council_query` run, as assembled
at lines 282-292 of `mcp_server.py`. -/
def queryPayload (question : String) (rs : List ModelResponse)
    (subs : List RankingSubmission) (ltm : LabelMap) (syn : SynthesisResult)
    (cid : Option String) (uri : Option String) : QueryResponse :=
  { question := question, stage1_responses := rs, stage2_rankings := subs,
    stage3_synthesis := syn,
    metadata := { label_to_model := ltm,
                  aggregate_rankings := calculate_aggregate_rankings subs ltm },
    conversation_id := cid, resource_uri := uri }

/-- A `TextContent` of the generic type `"text"`, the only kind the
handlers construct. -/
def textContent (t : TCText) : TextContent :=
  { type := "text", text := t }

/-- C8: for every successful run, `handle_council_query` returns a payload
containing the question, the Stage 1 responses, the Stage 2 rankings, the
Stage 3 synthesis, the label-to-model mapping, and the aggregate rankings;
the payload carries a `conversation_id` exactly when persistence was
requested (`save_conversation`, which defaults to true). -/
theorem council_query_success_payload (dfl : Defaults) (env : Env)
    (args : QueryArgs) (g0 : Config) (rs : List ModelResponse)
    (subs : List RankingSubmission) (ltm : LabelMap) (syn : SynthesisResult)
    (ttl : String)
    (hlog : ∀ i, env.sendLog i = Except.ok ())
    (hs1 : ∀ q ms, env.stage1_collect_responses q ms = Except.ok rs)
    (hrs : rs.isEmpty = false)
    (hs2 : ∀ q r ms, env.stage2_collect_rankings q r ms = Except.ok (subs, ltm))
    (hs3 : ∀ q r k c, env.stage3_synthesize_final q r k c = Except.ok syn)
    (hct : ∀ id, env.create_conversation id = Except.ok ())
    (hgt : ∀ q, env.generate_conversation_title q = Except.ok ttl)
    (hut : ∀ id t, env.update_conversation_title id t = Except.ok ())
    (hau : ∀ id q, env.add_user_message id q = Except.ok ())
    (haa : ∀ id a b c, env.add_assistant_message id a b c = Except.ok ())
    (huuid : env.uuid4 ≠ "") :
    (handle_council_query dfl env args g0).result =
      PyResult.ok [textContent (TCText.queryDump
        (queryPayload args.question rs subs ltm syn
          (if args.save_conversation.getD true = true then some env.uuid4 else none)
          (if args.save_conversation.getD true = true
            then some ("council://conversations/" ++ env.uuid4) else none)))] ∧
    ((if args.save_conversation.getD true = true
        then some env.uuid4 else none).isSome = true
      ↔ args.save_conversation.getD true = true) := by
  constructor
  · cases hsv : args.save_conversation.getD true with
    | false =>
      simp [handle_council_query, queryBody, hlog, hs1, hrs, hs2, hs3, hsv,
        queryPayload, textContent]
    | true =>
      simp [handle_council_query, queryBody, hlog, hs1, hrs, hs2, hs3, hct,
        hgt, hut, hau, haa, hsv, huuid, queryPayload, textContent]
  · cases hsv : args.save_conversation.getD true <;> simp [hsv]

/-- C6: for every run in which Stage 1 succeeds but Stage 2 yields zero
valid ranking submissions, the aggregate ranking is the empty sequence and
the Stage 3 synthesis call is still issued: Stage 2 total failure is not
fatal to the run. -/
theorem council_query_stage2_total_failure_not_fatal (dfl : Defaults)
    (env : Env) (args : QueryArgs) (g0 : Config) (rs : List ModelResponse)
    (subs : List RankingSubmission) (ltm : LabelMap) (syn : SynthesisResult)
    (hlog : ∀ i, env.sendLog i = Except.ok ())
    (hs1 : ∀ q ms, env.stage1_collect_responses q ms = Except.ok rs)
    (hrs : rs.isEmpty = false)
    (hs2 : ∀ q r ms, env.stage2_collect_rankings q r ms = Except.ok (subs, ltm))
    (hvalid : validSubmissions subs ltm = [])
    (hs3 : ∀ q r k c, env.stage3_synthesize_final q r k c = Except.ok syn)
    (hsave : args.save_conversation = some false) :
    ((handle_council_query dfl env args g0).trace.any
      fun e => isStage3CallEvent e) = true ∧
    (handle_council_query dfl env args g0).result =
      PyResult.ok [textContent (TCText.queryDump
        (queryPayload args.question rs subs ltm syn none none))] ∧
    calculate_aggregate_rankings subs ltm = [] := by
  refine ⟨?_, ?_, aggregate_empty_of_no_valid subs ltm hvalid⟩
  · simp [handle_council_query, queryBody, hlog, hs1, hrs, hs2, hs3, hsave,
      isStage3CallEvent]
  · simp [handle_council_query, queryBody, hlog, hs1, hrs, hs2, hs3, hsave,
      queryPayload, textContent]

/-- C3 as amended: when all three stages complete and persistence was
requested, a failure of any of the four store operations
(`create_conversation`, `update_conversation_title`, `add_user_message`,
`add_assistant_message`) or of title generation is caught by the run-level
`except` branch, which discards the already-computed result and returns
the run-level error text instead; the trace witnesses that Stage 3
completed.  The disjunctive hypothesis enumerates the five failure points
in program order, each with its predecessors succeeding. -/
theorem council_query_persistence_failure_returns_error (dfl : Defaults)
    (env : Env) (args : QueryArgs) (g0 : Config) (rs : List ModelResponse)
    (subs : List RankingSubmission) (ltm : LabelMap) (syn : SynthesisResult)
    (ex : PyExn) (ttl : String)
    (hlog : ∀ i, env.sendLog i = Except.ok ())
    (hs1 : ∀ q ms, env.stage1_collect_responses q ms = Except.ok rs)
    (hrs : rs.isEmpty = false)
    (hs2 : ∀ q r ms, env.stage2_collect_rankings q r ms = Except.ok (subs, ltm))
    (hs3 : ∀ q r k c, env.stage3_synthesize_final q r k c = Except.ok syn)
    (hsave : args.save_conversation = some true)
    (hfail :
      (∀ id, env.create_conversation id = Except.error ex) ∨
      ((∀ id, env.create_conversation id = Except.ok ()) ∧
       (∀ q, env.generate_conversation_title q = Except.error ex)) ∨
      ((∀ id, env.create_conversation id = Except.ok ()) ∧
       (∀ q, env.generate_conversation_title q = Except.ok ttl) ∧
       (∀ id t, env.update_conversation_title id t = Except.error ex)) ∨
      ((∀ id, env.create_conversation id = Except.ok ()) ∧
       (∀ q, env.generate_conversation_title q = Except.ok ttl) ∧
       (∀ id t, env.update_conversation_title id t = Except.ok ()) ∧
       (∀ id q, env.add_user_message id q = Except.error ex)) ∨
      ((∀ id, env.create_conversation id = Except.ok ()) ∧
       (∀ q, env.generate_conversation_title q = Except.ok ttl) ∧
       (∀ id t, env.update_conversation_title id t = Except.ok ()) ∧
       (∀ id q, env.add_user_message id q = Except.ok ()) ∧
       (∀ id a b c, env.add_assistant_message id a b c = Except.error ex))) :
    (handle_council_query dfl env args g0).result =
      PyResult.ok [textContent (TCText.plain (queryExceptText ex))] ∧
    ((handle_council_query dfl env args g0).trace.any
      fun e => isStage3CallEvent e) = true := by
  rcases hfail with h1 | ⟨h1, h2⟩ | ⟨h1, h2, h3⟩ | ⟨h1, h2, h3, h4⟩ |
    ⟨h1, h2, h3, h4, h5⟩
  · constructor
    · simp [handle_council_query, queryBody, hlog, hs1, hrs, hs2, hs3, hsave,
        h1, textContent]
    · simp [handle_council_query, queryBody, hlog, hs1, hrs, hs2, hs3, hsave,
        h1, isStage3CallEvent]
  · constructor
    · simp [handle_council_query, queryBody, hlog, hs1, hrs, hs2, hs3, hsave,
        h1, h2, textContent]
    · simp [handle_council_query, queryBody, hlog, hs1, hrs, hs2, hs3, hsave,
        h1, h2, isStage3CallEvent]
  · constructor
    · simp [handle_council_query, queryBody, hlog, hs1, hrs, hs2, hs3, hsave,
        h1, h2, h3, textContent]
    · simp [handle_council_query, queryBody, hlog, hs1, hrs, hs2, hs3, hsave,
        h1, h2, h3, isStage3CallEvent]
  · constructor
    · simp [handle_council_query, queryBody, hlog, hs1, hrs, hs2, hs3, hsave,
        h1, h2, h3, h4, textContent]
    · simp [handle_council_query, queryBody, hlog, hs1, hrs, hs2, hs3, hsave,
        h1, h2, h3, h4, isStage3CallEvent]
  · constructor
    · simp [handle_council_query, queryBody, hlog, hs1, hrs, hs2, hs3, hsave,
        h1, h2, h3, h4, h5, textContent]
    · simp [handle_council_query, queryBody, hlog, hs1, hrs, hs2, hs3, hsave,
        h1, h2, h3, h4, h5, isStage3CallEvent]

/-- The `except`-branch text of `handle_council_query` never coincides
with the all-providers-failed text, whatever the exception: the two fixed
templates end in different characters. -/
theorem queryExceptText_ne_allFailedText (e : PyExn) :
    queryExceptText e ≠ allFailedText := by
  intro h
  have hd : (queryExceptText e).data.getLast? = allFailedText.data.getLast? := by
    rw [h]
  rw [queryExceptText, String.data_append, String.data_append,
    String.data_append, String.data_append, List.getLast?_append] at hd
  rw [show ("\n\nPlease check:\n1. Your OPENROUTER_API_KEY is valid\n2. You have credits in your OpenRouter account\n3. The model names are correct".data.getLast? = some (Char.ofNat 116)) from by decide] at hd
  simp only [Option.or] at hd
  exact absurd hd (by decide)

/-- The `except`-branch text of `handle_council_stage1` never coincides
with the all-providers-failed text, whatever the exception. -/
theorem stage1ExceptText_ne_allFailedText (e : PyExn) :
    stage1ExceptText e ≠ allFailedText := by
  intro h
  have hd : (stage1ExceptText e).data.getLast? = allFailedText.data.getLast? := by
    rw [h]
  rw [stage1ExceptText, String.data_append, String.data_append,
    List.getLast?_append] at hd
  rw [show ("\n\nThis is likely a configuration or API issue. The core council logic works (verified), so check:\n1. Your mcp.json config has correct paths\n2. OPENROUTER_API_KEY is set in env\n3. Model names are valid".data.getLast? = some (Char.ofNat 100)) from by decide] at hd
  simp only [Option.or] at hd
  exact absurd hd (by decide)

/-- The `try` body of `handle_council_query` either raises, returns the
all-failed free text, or returns a dumped success payload — nothing
else. -/
theorem queryBody_outcomes (dfl : Defaults) (env : Env) (args : QueryArgs)
    (g0 : Config) :
    (∃ e, (queryBody dfl env args g0).1 = BodyOut.exn e) ∨
    (queryBody dfl env args g0).1 =
      BodyOut.ret [textContent (TCText.plain allFailedText)] ∨
    (∃ r, (queryBody dfl env args g0).1 =
      BodyOut.ret [textContent (TCText.queryDump r)]) := by
  simp only [queryBody]
  repeat' split
  all_goals simp [textContent]

/-- The `try` body of `handle_council_stage1` either raises, returns the
all-failed free text, or returns a dumped Stage 1 payload — nothing
else. -/
theorem stage1Body_outcomes (dfl : Defaults) (env : Env) (args : StageArgs)
    (g0 : Config) :
    (∃ e, (stage1Body dfl env args g0).1 = BodyOut.exn e) ∨
    (stage1Body dfl env args g0).1 =
      BodyOut.ret [textContent (TCText.plain allFailedText)] ∨
    (∃ r, (stage1Body dfl env args g0).1 =
      BodyOut.ret [textContent (TCText.stage1Dump r)]) := by
  simp only [stage1Body]
  repeat' split
  all_goals simp [textContent]

/-- C5 as amended: every reply of `council_query` and `council_stage1` —
for every oracle, arguments and entry state — is a single `TextContent` of
the generic type `"text"`.  On a failing run the payload is plain free
text: the fixed all-providers-failed message or the `except`-branch
template around `str(e)` (for `council_query` the exception escapes
instead when even the error-log call raises); a successful run carries a
JSON dump.  The failure texts of the distinct kinds provably differ, so
failure kinds are distinguishable only by parsing the free-text message —
no structured, machine-readable error kind is reported. -/
theorem council_failures_free_text_only (dfl : Defaults) (env : Env)
    (args : QueryArgs) (sargs : StageArgs) (g0 g1 : Config) :
    ((∃ e, (handle_council_query dfl env args g0).result = PyResult.raised e) ∨
     (∃ e, (handle_council_query dfl env args g0).result =
        PyResult.ok [textContent (TCText.plain (queryExceptText e))]) ∨
     (handle_council_query dfl env args g0).result =
        PyResult.ok [textContent (TCText.plain allFailedText)] ∨
     (∃ r, (handle_council_query dfl env args g0).result =
        PyResult.ok [textContent (TCText.queryDump r)])) ∧
    ((∃ e, (handle_council_stage1 dfl env sargs g1).result =
        PyResult.ok [textContent (TCText.plain (stage1ExceptText e))]) ∨
     (handle_council_stage1 dfl env sargs g1).result =
        PyResult.ok [textContent (TCText.plain allFailedText)] ∨
     (∃ r, (handle_council_stage1 dfl env sargs g1).result =
        PyResult.ok [textContent (TCText.stage1Dump r)])) ∧
    (∀ e, queryExceptText e ≠ allFailedText) ∧
    (∀ e, stage1ExceptText e ≠ allFailedText) := by
  refine ⟨?_, ?_, queryExceptText_ne_allFailedText,
    stage1ExceptText_ne_allFailedText⟩
  · have h := queryBody_outcomes dfl env args g0
    simp only [handle_council_query]
    split
    · next tcs g tr heq =>
      rw [heq] at h
      rcases h with ⟨e, h⟩ | h | ⟨r, h⟩
      · simp at h
      · simp at h
        subst h
        exact Or.inr (Or.inr (Or.inl rfl))
      · simp at h
        subst h
        exact Or.inr (Or.inr (Or.inr ⟨r, rfl⟩))
    · next e g tr heq =>
      split
      · next e2 heq2 => exact Or.inl ⟨e2, rfl⟩
      · exact Or.inr (Or.inl ⟨e, rfl⟩)
  · have h := stage1Body_outcomes dfl env sargs g1
    simp only [handle_council_stage1]
    split
    · next tcs g tr heq =>
      rw [heq] at h
      rcases h with ⟨e, h⟩ | h | ⟨r, h⟩
      · simp at h
      · simp at h
        subst h
        exact Or.inr (Or.inl rfl)
      · simp at h
        subst h
        exact Or.inr (Or.inr ⟨r, rfl⟩)
    · next e g tr heq => exact Or.inl ⟨e, rfl⟩

/-- Import-time defaults used by the concrete scenarios. -/
def dflW : Defaults := { COUNCIL_MODELS := ["m1", "m2"], CHAIRMAN_MODEL := "chair" }

/-- Entry state of `backend_config` in the concrete scenarios; it matches
the import-time defaults, as after module load. -/
def cfgW : Config := { COUNCIL_MODELS := ["m1", "m2"], CHAIRMAN_MODEL := "chair", otherFields := 7 }

/-- A successful Stage 1 response. -/
def respW : ModelResponse := { model_id := "m1", text := "answer", error := none }

/-- A successful Stage 3 synthesis. -/
def synW : SynthesisResult := { text := "final", chairman_model_id := "chair", error := none }

/-- A Stage 2 submission that references a label absent from the label
map, hence invalid. -/
def subW : RankingSubmission := { ranking_model_id := "m1", ordered_labels := ["Z"], error := none }

/-- The label map of the concrete Stage 2 round. -/
def ltmW : LabelMap := [("A", "m1")]

/-- An oracle in which every external call succeeds. -/
def okEnv : Env where
  sendLog := fun _ => Except.ok ()
  stage1_collect_responses := fun _ _ => Except.ok [respW]
  stage2_collect_rankings := fun _ _ _ => Except.ok ([subW], ltmW)
  stage3_synthesize_final := fun _ _ _ _ => Except.ok synW
  generate_conversation_title := fun _ => Except.ok "title"
  create_conversation := fun _ => Except.ok ()
  update_conversation_title := fun _ _ => Except.ok ()
  add_user_message := fun _ _ => Except.ok ()
  add_assistant_message := fun _ _ _ _ => Except.ok ()
  uuid4 := "uuid-1234"
  get_conversation := fun _ => none

/-- `council_query` arguments requesting persistence and default models. -/
def argsW : QueryArgs :=
  { question := "q", council_models := none, chairman_model := none,
    save_conversation := some true }

/-- `council_query` arguments declining persistence. -/
def argsNoSave : QueryArgs :=
  { question := "q", council_models := none, chairman_model := none,
    save_conversation := some false }

/-- `council_stage1` arguments with default models. -/
def sargsW : StageArgs := { question := "q", council_models := none }

/-- The payload a fully successful persisted run of the concrete scenario
returns. -/
def payloadW : QueryResponse :=
  queryPayload "q" [respW] [subW] ltmW synW (some "uuid-1234")
    (some "council://conversations/uuid-1234")

/-- Run A of the concurrency scenario: it requests the custom council
`["modelX"]` and no persistence. -/
def argsA : QueryArgs :=
  { question := "question A", council_models := some ["modelX"],
    chairman_model := none, save_conversation := some false }

/-- Run B of the concurrency scenario: it requests no custom models, so
per the claim its Stage 1 must use only the default selection. -/
def argsB : QueryArgs :=
  { question := "question B", council_models := none,
    chairman_model := none, save_conversation := some false }

/-- C2, exhibited violation: `handle_council_query` stores the per-run
model selection in the process-wide `backend_config` (lines 181-189) and
restores it only in its `finally` block, so the selection is shared
mutable state.  Interleaving: run A executes its override and suspends at
its first `await`; run B (which requested no custom models) then runs to
completion.  B's Stage 1 call observes A's `["modelX"]` from the shared
config instead of B's own defaulted selection — contradicting the claim
that neither invocation observes the other's selection. -/
theorem council_query_concurrent_override_leak :
    Event.stage1Call "question B" ["modelX"]
      ∈ (handle_council_query dflW okEnv argsB
          (configAfterOverride dflW argsA cfgW)).trace ∧
    argsB.council_models = none ∧
    ["modelX"] ≠ dflW.COUNCIL_MODELS := by decide

/-- An oracle whose progress notifications all fail (the `except`-branch
log at site 8 still succeeds, isolating the effect of the progress
notifications themselves). -/
def envLogFail : Env :=
  { okEnv with sendLog := fun i =>
      if i = 8 then Except.ok ()
      else Except.error (PyExn.mk "notification channel closed" "tbL") }

/-- C4, exhibited violation: in `handle_council_query` the progress
notifications are not individually protected, so a raising
`send_log_message` aborts the run before Stage 1 is ever called and the
handler returns the run-level error instead of the result it returns when
the notification succeeds — the pipeline outcome changes.  In
`handle_council_stage1`, whose log calls are wrapped in
`try/except: pass`, the same notification failure leaves the result
unchanged, which is also the intent documented by the code's own comments
there. -/
theorem council_query_log_failure_changes_outcome :
    (handle_council_query dflW envLogFail argsW cfgW).result =
      PyResult.ok [textContent (TCText.plain
        (queryExceptText (PyExn.mk "notification channel closed" "tbL")))] ∧
    ((handle_council_query dflW envLogFail argsW cfgW).trace.any
      fun e => isStage1CallEvent e) = false ∧
    (handle_council_query dflW okEnv argsW cfgW).result =
      PyResult.ok [textContent (TCText.queryDump payloadW)] ∧
    (handle_council_stage1 dflW envLogFail sargsW cfgW).result =
      (handle_council_stage1 dflW okEnv sargsW cfgW).result := by decide

/-- The store exception of the persistence-failure scenario. -/
def exC3 : PyExn := { msg := "create_conversation failed", tb := "tb" }

/-- An oracle in which every call succeeds except `create_conversation`. -/
def envC3 : Env := { okEnv with create_conversation := fun _ => Except.error exC3 }

/-- C3, counterexample: all three stages complete (the trace contains the
Stage 3 call) and persistence is requested, yet when `create_conversation`
fails the handler returns the run-level error text — the already-computed
result is not returned to the caller, contradicting the claim. -/
theorem council_query_persistence_failure_drops_result_cex :
    ((handle_council_query dflW envC3 argsW cfgW).trace.any
      fun e => isStage3CallEvent e) = true ∧
    (handle_council_query dflW envC3 argsW cfgW).result =
      PyResult.ok [textContent (TCText.plain (queryExceptText exC3))] := by decide

/-- An oracle in which Stage 1 returns zero responses. -/
def envC5 : Env :=
  { okEnv with stage1_collect_responses := fun _ _ => Except.ok [] }

/-- C5, counterexample: a failing run (Stage 1 total failure) is reported
as a single content of the generic type `"text"` whose entire payload is a
plain free-text message — no structured, machine-distinguishable error
kind accompanies the report, contradicting the claim. -/
theorem council_query_failure_free_text_cex :
    (handle_council_query dflW envC5 argsW cfgW).result =
      PyResult.ok [textContent (TCText.plain allFailedText)] := by decide

/-- C10: for a conversation id absent from the store, the
`council_get_conversation` tool returns a normal text result carrying a
not-found error message without raising, whereas `handle_read_resource`
raises (`ValueError`) for the same missing conversation, and raises as
well for any URI outside the `council://conversations/` scheme. -/
theorem get_conversation_vs_read_resource (env : Env) (cid uri bad : String)
    (hmiss : env.get_conversation cid = none)
    (hupre : pyStartswith uri "council://conversations/" = true)
    (humiss : env.get_conversation
      (pyReplace uri "council://conversations/" "") = none)
    (hbad : pyStartswith bad "council://conversations/" = false) :
    handle_get_conversation_tool env { conversation_id := cid } =
      [textContent (TCText.plain ("Error: Conversation not found: " ++ cid))] ∧
    handle_read_resource env uri = Except.error
      { msg := "Conversation not found: " ++
          pyReplace uri "council://conversations/" "", tb := "" } ∧
    handle_read_resource env bad = Except.error
      { msg := "Unknown resource URI: " ++ bad, tb := "" } := by
  refine ⟨?_, ?_, ?_⟩ <;>
    simp [handle_get_conversation_tool, handle_read_resource, hmiss, hupre,
      humiss, hbad, textContent]

/-- Witness for C10 on the concrete missing id `"abc"` and the foreign
URI `"foo://bar"`. -/
theorem get_conversation_vs_read_resource_witness :
    (okEnv.get_conversation "abc" = none ∧
     pyStartswith "council://conversations/abc" "council://conversations/" = true ∧
     okEnv.get_conversation
       (pyReplace "council://conversations/abc" "council://conversations/" "") = none ∧
     pyStartswith "foo://bar" "council://conversations/" = false) ∧
    (handle_get_conversation_tool okEnv { conversation_id := "abc" } =
      [textContent (TCText.plain ("Error: Conversation not found: " ++ "abc"))] ∧
    handle_read_resource okEnv "council://conversations/abc" = Except.error
      { msg := "Conversation not found: " ++
          pyReplace "council://conversations/abc" "council://conversations/" "",
        tb := "" } ∧
    handle_read_resource okEnv "foo://bar" = Except.error
      { msg := "Unknown resource URI: " ++ "foo://bar", tb := "" }) :=
  ⟨⟨rfl, by decide, rfl, by decide⟩,
   get_conversation_vs_read_resource okEnv "abc" "council://conversations/abc"
     "foo://bar" rfl (by decide) rfl (by decide)⟩

/-- Witness for C1: with an oracle whose Stage 1 returns zero responses,
the run fails and issues no later-stage call. -/
theorem council_query_all_providers_failed_witness :
    (∀ q ms, envC5.stage1_collect_responses q ms = Except.ok []) ∧
    (isRunFailure (handle_council_query dflW envC5 argsW cfgW).result = true ∧
     ((handle_council_query dflW envC5 argsW cfgW).trace.all
       fun e => !isLaterStageEvent e) = true) :=
  ⟨fun _ _ => rfl,
   council_query_all_providers_failed dflW envC5 argsW cfgW (fun _ _ => rfl)⟩

/-- Witness for the amended C3 on the concrete failing store. -/
theorem council_query_persistence_failure_returns_error_witness :
    ((∀ i, envC3.sendLog i = Except.ok ()) ∧
     (∀ q ms, envC3.stage1_collect_responses q ms = Except.ok [respW]) ∧
     ([respW].isEmpty = false) ∧
     (∀ q r ms, envC3.stage2_collect_rankings q r ms = Except.ok ([subW], ltmW)) ∧
     (∀ q r k c, envC3.stage3_synthesize_final q r k c = Except.ok synW) ∧
     (argsW.save_conversation = some true) ∧
     (∀ id, envC3.create_conversation id = Except.error exC3)) ∧
    ((handle_council_query dflW envC3 argsW cfgW).result =
      PyResult.ok [textContent (TCText.plain (queryExceptText exC3))] ∧
    ((handle_council_query dflW envC3 argsW cfgW).trace.any
      fun e => isStage3CallEvent e) = true) :=
  ⟨⟨fun _ => rfl, fun _ _ => rfl, rfl, fun _ _ _ => rfl, fun _ _ _ _ => rfl,
    rfl, fun _ => rfl⟩,
   council_query_persistence_failure_returns_error dflW envC3 argsW cfgW
     [respW] [subW] ltmW synW exC3 "title" (fun _ => rfl) (fun _ _ => rfl) rfl
     (fun _ _ _ => rfl) (fun _ _ _ _ => rfl) rfl (Or.inl (fun _ => rfl))⟩

/-- Witness for C6: the single submitted ranking references an unknown
label, so the round has zero valid submissions. -/
theorem council_query_stage2_total_failure_not_fatal_witness :
    ((∀ i, okEnv.sendLog i = Except.ok ()) ∧
     (∀ q ms, okEnv.stage1_collect_responses q ms = Except.ok [respW]) ∧
     ([respW].isEmpty = false) ∧
     (∀ q r ms, okEnv.stage2_collect_rankings q r ms = Except.ok ([subW], ltmW)) ∧
     (validSubmissions [subW] ltmW = []) ∧
     (∀ q r k c, okEnv.stage3_synthesize_final q r k c = Except.ok synW) ∧
     (argsNoSave.save_conversation = some false)) ∧
    (((handle_council_query dflW okEnv argsNoSave cfgW).trace.any
      fun e => isStage3CallEvent e) = true ∧
    (handle_council_query dflW okEnv argsNoSave cfgW).result =
      PyResult.ok [textContent (TCText.queryDump
        (queryPayload argsNoSave.question [respW] [subW] ltmW synW none none))] ∧
    calculate_aggregate_rankings [subW] ltmW = []) :=
  ⟨⟨fun _ => rfl, fun _ _ => rfl, rfl, fun _ _ _ => rfl, by decide,
    fun _ _ _ _ => rfl, rfl⟩,
   council_query_stage2_total_failure_not_fatal dflW okEnv argsNoSave cfgW
     [respW] [subW] ltmW synW (fun _ => rfl) (fun _ _ => rfl) rfl
     (fun _ _ _ => rfl) (by decide) (fun _ _ _ _ => rfl) rfl⟩

/-- Witness for C8 on the all-success oracle with persistence
requested. -/
theorem council_query_success_payload_witness :
    ((∀ i, okEnv.sendLog i = Except.ok ()) ∧
     (∀ q ms, okEnv.stage1_collect_responses q ms = Except.ok [respW]) ∧
     ([respW].isEmpty = false) ∧
     (∀ q r ms, okEnv.stage2_collect_rankings q r ms = Except.ok ([subW], ltmW)) ∧
     (∀ q r k c, okEnv.stage3_synthesize_final q r k c = Except.ok synW) ∧
     (∀ id, okEnv.create_conversation id = Except.ok ()) ∧
     (∀ q, okEnv.generate_conversation_title q = Except.ok "title") ∧
     (∀ id t, okEnv.update_conversation_title id t = Except.ok ()) ∧
     (∀ id q, okEnv.add_user_message id q = Except.ok ()) ∧
     (∀ id a b c, okEnv.add_assistant_message id a b c = Except.ok ()) ∧
     (okEnv.uuid4 ≠ "")) ∧
    ((handle_council_query dflW okEnv argsW cfgW).result =
      PyResult.ok [textContent (TCText.queryDump
        (queryPayload argsW.question [respW] [subW] ltmW synW
          (if argsW.save_conversation.getD true = true then some okEnv.uuid4 else none)
          (if argsW.save_conversation.getD true = true
            then some ("council://conversations/" ++ okEnv.uuid4) else none)))] ∧
    ((if argsW.save_conversation.getD true = true
        then some okEnv.uuid4 else none).isSome = true
      ↔ argsW.save_conversation.getD true = true)) :=
  ⟨⟨fun _ => rfl, fun _ _ => rfl, rfl, fun _ _ _ => rfl, fun _ _ _ _ => rfl,
    fun _ => rfl, fun _ => rfl, fun _ _ => rfl, fun _ _ => rfl,
    fun _ _ _ _ => rfl, by decide⟩,
   council_query_success_payload dflW okEnv argsW cfgW [respW] [subW] ltmW
     synW "title" (fun _ => rfl) (fun _ _ => rfl) rfl (fun _ _ _ => rfl)
     (fun _ _ _ _ => rfl) (fun _ => rfl) (fun _ => rfl) (fun _ _ => rfl)
     (fun _ _ => rfl) (fun _ _ _ _ => rfl) (by decide)⟩
